import Mathlib

/-!
Verification of the service-identity credential lifecycle.

This file is a shallow embedding of the Go sources of
`Kilat-Pet-Delivery/service-identity`:

* `internal/domain/identity/user.go` — the `User` aggregate and its mutators;
* the `RefreshToken` entity with `IsValid` / `IsExpired` / `Revoke`;
* the `Email` and `Phone` value objects with their validation regexes;
* `internal/repository/user_repository.go` and `token_repository.go` —
  the GORM-backed stores, modelled as pure functions over lists of rows;
* `internal/application/auth_service.go` — the `AuthService` use cases.

Modelling conventions: machine integers (`int64` version, timestamps) are
Lean `Int`; `uuid.UUID` values are `Nat` supplied by the environment
(`uuid.New()` is nondeterministic, so fresh ids are explicit arguments);
`time.Time` is an `Int` instant and `time.Now()` is an explicit `now`
argument; fallible Go calls return `Except`/`Option`.  The bcrypt hasher
and the JWT signer live in the external `lib-common` module, so they are
abstracted as function records (`Hasher`, `JWTManager`); the signer output
depends on the clock (issued-at claim), which is modelled by passing `now`.
-/

deriving instance DecidableEq for Except

/-- The error taxonomy of `lib-common/domain` plus the two raw error shapes
that actually cross the repository boundary: `uniqueViolation` is a raw
driver duplicate-key error returned untranslated by `Create`, and `wrapped`
models Go `fmt.Errorf("...: %w", err)`. -/
inductive Err where
  | alreadyExists (entity field value : String)
  | validation (msg : String)
  | unauthorized (msg : String)
  | notFound (entity id : String)
  | conflict (msg : String)
  | uniqueViolation (detail : String)
  | external (msg : String)
  | wrapped (msg : String) (inner : Err)
deriving DecidableEq

/-- Whether an error is, or wraps (at any depth, as Go `errors.As` would
unwrap), an `AlreadyExists` error. -/
def containsAlreadyExists : Err → Bool
  | .alreadyExists _ _ _ => true
  | .wrapped _ inner => containsAlreadyExists inner
  | _ => false

/-- Character class `[a-zA-Z0-9._%+\-]` of the local part of the email
regex in `email.go`. -/
def emailLocalChar (c : Char) : Bool :=
  c.isAlphanum || c == '.' || c == '_' || c == '%' || c == '+' || c == '-'

/-- Character class `[a-zA-Z0-9.\-]` of the domain part of the email
regex in `email.go`. -/
def emailDomainChar (c : Char) : Bool :=
  c.isAlphanum || c == '.' || c == '-'

/-- Split a character list around its first occurrence of `sep`;
`none` when `sep` does not occur. -/
def splitAtFirst (sep : Char) : List Char → Option (List Char × List Char)
  | [] => none
  | c :: rest =>
    if c == sep then some ([], rest)
    else
      match splitAtFirst sep rest with
      | some (pre, post) => some (c :: pre, post)
      | none => none

/-- Split a character list around its last occurrence of `'.'`;
`none` when no dot occurs. -/
def lastDotSplit : List Char → Option (List Char × List Char)
  | [] => none
  | c :: rest =>
    match lastDotSplit rest with
    | some (pre, tld) => some (c :: pre, tld)
    | none => if c == '.' then some ([], rest) else none

/-- The email regex `^[a-zA-Z0-9._%+\-]+@[a-zA-Z0-9.\-]+\.[a-zA-Z]{2,}$`
of `email.go`.  Neither character class contains `'@'`, so a match has
exactly one `'@'`; the domain part matches iff splitting at its last dot
yields a non-empty `[a-zA-Z0-9.\-]+` prefix and an all-letter tail of
length at least 2 (a split at any earlier dot would put a dot inside the
letters-only tail). -/
def emailFormatOk (s : String) : Bool :=
  match splitAtFirst '@' s.data with
  | none => false
  | some (localPart, domainPart) =>
    !localPart.isEmpty && localPart.all emailLocalChar &&
      (match lastDotSplit domainPart with
       | none => false
       | some (pre, tld) =>
         !pre.isEmpty && pre.all emailDomainChar &&
           decide (2 ≤ tld.length) && tld.all Char.isAlpha)

/-- The phone regex `^\+?[0-9]{7,15}$` of `phone.go`: an optional leading
`'+'` followed by 7 to 15 digits. -/
def phoneFormatOk (s : String) : Bool :=
  let ds :=
    match s.data with
    | c :: rest => if c == '+' then rest else c :: rest
    | [] => []
  decide (7 ≤ ds.length) && decide (ds.length ≤ 15) && ds.all Char.isDigit

/-- Go `strings.TrimSpace`: drop leading and trailing whitespace. -/
def trimSpace (s : String) : String :=
  ⟨((s.data.dropWhile Char.isWhitespace).reverse.dropWhile Char.isWhitespace).reverse⟩

/-- Go `strings.ToLower` (ASCII case folding suffices for the validated
email alphabet). -/
def toLowerStr (s : String) : String :=
  ⟨s.data.map Char.toLower⟩

/-- `NewEmail` from `email.go`: trim, require non-empty, check the regex,
then store the lowercased value.  The `Email` value object wraps a single
string, embedded here as the string itself. -/
def NewEmail (raw : String) : Except String String :=
  let trimmed := trimSpace raw
  if trimmed = "" then .error "email is required"
  else if !emailFormatOk trimmed then .error ("invalid email format: " ++ trimmed)
  else .ok (toLowerStr trimmed)

/-- `NewPhone` from `phone.go`: empty (after trimming) is allowed, any
other value must match the phone regex.  The `Phone` value object wraps a
single string, embedded here as the string itself. -/
def NewPhone (raw : String) : Except String String :=
  let trimmed := trimSpace raw
  if trimmed = "" then .ok ""
  else if !phoneFormatOk trimmed then .error ("invalid phone format: " ++ trimmed)
  else .ok trimmed

/-- The `User` aggregate of `user.go` (also the shape of the persisted
`users` row: the GORM `UserModel` carries exactly these fields). -/
structure User where
  id : Nat
  email : String
  phone : String
  passwordHash : String
  fullName : String
  role : String
  isVerified : Bool
  avatarURL : String
  version : Int
  createdAt : Int
  updatedAt : Int
deriving DecidableEq

/-- `NewUser` from `user.go`: validated construction with `version = 1`,
`isVerified = false`, empty avatar.  `uuid.New()` and `time.Now().UTC()`
are the explicit `id` and `now` arguments. -/
def NewUser (email phone fullName passwordHash role : String) (id : Nat) (now : Int) :
    Except String User :=
  match NewEmail email with
  | .error e => .error e
  | .ok emailVO =>
    match NewPhone phone with
    | .error e => .error e
    | .ok phoneVO =>
      if fullName = "" then .error "full name is required"
      else if passwordHash = "" then .error "password hash is required"
      else .ok
        { id := id
          email := emailVO
          phone := phoneVO
          passwordHash := passwordHash
          fullName := fullName
          role := role
          isVerified := false
          avatarURL := ""
          version := 1
          createdAt := now
          updatedAt := now }

/-- `User.UpdateProfile` from `user.go`: each field is assigned only when
the argument is non-empty; the phone is assigned as `Phone{value: phone}`,
a direct struct literal that bypasses `NewPhone` validation. -/
def User.UpdateProfile (u : User) (fullName phone avatarURL : String) (now : Int) : User :=
  { u with
    fullName := if fullName ≠ "" then fullName else u.fullName
    phone := if phone ≠ "" then phone else u.phone
    avatarURL := if avatarURL ≠ "" then avatarURL else u.avatarURL
    updatedAt := now }

/-- `User.Deactivate` from `user.go`: revokes verification. -/
def User.Deactivate (u : User) (now : Int) : User :=
  { u with isVerified := false, updatedAt := now }

/-- `User.IncrementVersion` from `user.go`. -/
def User.IncrementVersion (u : User) (now : Int) : User :=
  { u with version := u.version + 1, updatedAt := now }

/-- The `RefreshToken` entity (also the shape of the persisted
`refresh_tokens` row). -/
structure RefreshToken where
  id : Nat
  userID : Nat
  token : String
  expiresAt : Int
  revoked : Bool
  createdAt : Int
deriving DecidableEq

/-- `NewRefreshToken` from the domain entity file: fresh id, not revoked. -/
def NewRefreshToken (userID : Nat) (token : String) (expiresAt : Int) (id : Nat) (now : Int) :
    RefreshToken :=
  { id := id, userID := userID, token := token, expiresAt := expiresAt,
    revoked := false, createdAt := now }

/-- `RefreshToken.Revoke`: marks the (in-memory) entity revoked. -/
def RefreshToken.Revoke (t : RefreshToken) : RefreshToken :=
  { t with revoked := true }

/-- `RefreshToken.IsExpired`: `time.Now().UTC().After(t.expiresAt)`, i.e.
strictly after the expiry instant. -/
def RefreshToken.IsExpired (t : RefreshToken) (now : Int) : Bool :=
  decide (t.expiresAt < now)

/-- `RefreshToken.IsValid`: `!t.revoked && !t.IsExpired()`. -/
def RefreshToken.IsValid (t : RefreshToken) (now : Int) : Bool :=
  !t.revoked && !(t.IsExpired now)

/-- The durable state: the `users` and `refresh_tokens` tables. -/
structure Store where
  users : List User
  tokens : List RefreshToken
deriving DecidableEq

/-- `GormUserRepository.FindByEmail`: `WHERE email = ?` — an exact,
case-sensitive match against the stored (lowercased) email. -/
def findUserByEmail (users : List User) (email : String) : Option User :=
  users.find? (fun u => u.email == email)

/-- `GormUserRepository.FindByID`. -/
def findUserByID (users : List User) (id : Nat) : Option User :=
  users.find? (fun u => u.id == id)

/-- `GormUserRepository.Save`: a plain `Create`.  On a duplicate key
(unique email index or primary key) the raw driver error is returned
as-is — `Save` performs no translation into the domain taxonomy. -/
def userSave (users : List User) (m : User) : Except Err (List User) :=
  if users.any (fun u => u.email == m.email || u.id == m.id) then
    .error (.uniqueViolation "duplicate key value violates unique constraint")
  else .ok (users ++ [m])

/-- The effect of GORM `Updates(model)` with a struct argument on one
matched row: only fields holding a non-zero value of their Go type are
written (`""` for strings, `false` for bools, `0` for integers and for
the time zero value); zero-valued fields of the model are skipped and the
stored value is kept. -/
def applyUserUpdates (old m : User) : User :=
  { id := old.id
    email := if m.email ≠ "" then m.email else old.email
    phone := if m.phone ≠ "" then m.phone else old.phone
    passwordHash := if m.passwordHash ≠ "" then m.passwordHash else old.passwordHash
    fullName := if m.fullName ≠ "" then m.fullName else old.fullName
    role := if m.role ≠ "" then m.role else old.role
    isVerified := if m.isVerified then true else old.isVerified
    avatarURL := if m.avatarURL ≠ "" then m.avatarURL else old.avatarURL
    version := if m.version ≠ 0 then m.version else old.version
    createdAt := if m.createdAt ≠ 0 then m.createdAt else old.createdAt
    updatedAt := if m.updatedAt ≠ 0 then m.updatedAt else old.updatedAt }

/-- `GormUserRepository.Update`: one conditional statement
`UPDATE users SET ... WHERE id = ? AND version = ?` keyed on the expected
prior version `m.version - 1`; `RowsAffected == 0` becomes the domain
`Conflict` error. -/
def userUpdate (users : List User) (m : User) : Except Err (List User) :=
  if users.countP (fun u => u.id == m.id && u.version == m.version - 1) = 0 then
    .error (.conflict "user was modified by another transaction")
  else
    .ok (users.map fun u =>
      if u.id == m.id && u.version == m.version - 1 then applyUserUpdates u m else u)

/-- `GormTokenRepository.FindByToken`: `WHERE token = ?`. -/
def findTokenByToken (tokens : List RefreshToken) (token : String) : Option RefreshToken :=
  tokens.find? (fun t => t.token == token)

/-- `GormTokenRepository.Save`: a plain `Create`; duplicate token string
or primary key yields the raw driver error. -/
def tokenSave (tokens : List RefreshToken) (m : RefreshToken) : Except Err (List RefreshToken) :=
  if tokens.any (fun t => t.token == m.token || t.id == m.id) then
    .error (.uniqueViolation "duplicate key value violates unique constraint")
  else .ok (tokens ++ [m])

/-- `GormTokenRepository.RevokeAllForUser`:
`UPDATE refresh_tokens SET revoked = true WHERE user_id = ? AND revoked = false`.
Matching zero rows is not an error. -/
def revokeAllForUser (tokens : List RefreshToken) (userID : Nat) : List RefreshToken :=
  tokens.map fun t =>
    if t.userID == userID && !t.revoked then { t with revoked := true } else t

/-- The outbound user view built by `toUserDTO` in `auth_service.go`:
note that it carries no version field. -/
structure UserDTO where
  id : Nat
  email : String
  phone : String
  fullName : String
  role : String
  isVerified : Bool
  avatarURL : String
  createdAt : Int
deriving DecidableEq

/-- `toUserDTO` from `auth_service.go`. -/
def toUserDTO (u : User) : UserDTO :=
  { id := u.id, email := u.email, phone := u.phone, fullName := u.fullName,
    role := u.role, isVerified := u.isVerified, avatarURL := u.avatarURL,
    createdAt := u.createdAt }

/-- `RegisterRequest`. -/
structure RegisterRequest where
  email : String
  phone : String
  fullName : String
  password : String
  role : String
deriving DecidableEq

/-- `LoginRequest`. -/
structure LoginRequest where
  email : String
  password : String
deriving DecidableEq

/-- `UpdateProfileRequest`. -/
structure UpdateProfileRequest where
  fullName : String
  phone : String
  avatarURL : String
deriving DecidableEq

/-- `AuthResponse`. -/
structure AuthResponse where
  accessToken : String
  refreshToken : String
  user : UserDTO
deriving DecidableEq

/-- The bcrypt password hasher of `golang.org/x/crypto/bcrypt`, an
external collaborator: `generate` is `GenerateFromPassword` (`none`
models a hashing failure), `compare` is `CompareHashAndPassword`
returning whether hash and password match. -/
structure Hasher where
  generate : String → Option String
  compare : String → String → Bool

/-- The `auth.JWTManager` of `lib-common`, an external collaborator.
`generateAccess` takes user id, email, role; `generateRefresh` the user
id; both also take the clock instant (the signed tokens embed an
issued-at claim, so their output varies with the clock) and may fail.
`validate` is `ValidateToken`, yielding the embedded user id of the
claims when signature and expiry check out. -/
structure JWTManager where
  generateAccess : Nat → String → String → Int → Option String
  generateRefresh : Nat → Int → Option String
  validate : String → Option Nat

/-- The seven-day refresh-token window `7*24*time.Hour` (nanoseconds). -/
def refreshTokenTTL : Int := 7 * 24 * 60 * 60 * 1000000000

/-- `AuthService.Register`: advisory pre-check by `FindByEmail` on the
raw request email (the lookup error is discarded), hash, validated
construction, `Save` (whose error is wrapped as
`failed to save user: %w`, not translated), then token issuance and
refresh-token persistence. -/
def AuthService.Register (H : Hasher) (J : JWTManager) (newUserId newTokenId : Nat)
    (now : Int) (s : Store) (req : RegisterRequest) : Except Err (AuthResponse × Store) :=
  match findUserByEmail s.users req.email with
  | some _ => .error (.alreadyExists "User" "email" req.email)
  | none =>
    match H.generate req.password with
    | none => .error (.wrapped "failed to hash password" (.external "bcrypt"))
    | some hashed =>
      match NewUser req.email req.phone req.fullName hashed req.role newUserId now with
      | .error msg => .error (.validation msg)
      | .ok user =>
        match userSave s.users user with
        | .error e => .error (.wrapped "failed to save user" e)
        | .ok users1 =>
          match J.generateAccess user.id user.email user.role now with
          | none => .error (.wrapped "failed to generate access token" (.external "jwt"))
          | some access =>
            match J.generateRefresh user.id now with
            | none => .error (.wrapped "failed to generate refresh token" (.external "jwt"))
            | some refreshStr =>
              match tokenSave s.tokens
                  (NewRefreshToken user.id refreshStr (now + refreshTokenTTL) newTokenId now) with
              | .error e => .error (.wrapped "failed to save refresh token" e)
              | .ok tokens1 =>
                .ok ({ accessToken := access, refreshToken := refreshStr,
                       user := toUserDTO user },
                     { users := users1, tokens := tokens1 })

/-- `AuthService.Login`: both the unknown-email branch and the
hash-mismatch branch return `NewUnauthorizedError` with the same literal
message `invalid email or password`; the verified flag is never
inspected. -/
def AuthService.Login (H : Hasher) (J : JWTManager) (newTokenId : Nat) (now : Int)
    (s : Store) (req : LoginRequest) : Except Err (AuthResponse × Store) :=
  match findUserByEmail s.users req.email with
  | none => .error (.unauthorized "invalid email or password")
  | some user =>
    if !(H.compare user.passwordHash req.password) then
      .error (.unauthorized "invalid email or password")
    else
      match J.generateAccess user.id user.email user.role now with
      | none => .error (.wrapped "failed to generate access token" (.external "jwt"))
      | some access =>
        match J.generateRefresh user.id now with
        | none => .error (.wrapped "failed to generate refresh token" (.external "jwt"))
        | some refreshStr =>
          match tokenSave s.tokens
              (NewRefreshToken user.id refreshStr (now + refreshTokenTTL) newTokenId now) with
          | .error e => .error (.wrapped "failed to save refresh token" e)
          | .ok tokens1 =>
            .ok ({ accessToken := access, refreshToken := refreshStr,
                   user := toUserDTO user },
                 { users := s.users, tokens := tokens1 })

/-- `AuthService.RefreshToken`: validate the signature, look the token
up, reject invalid records, then `storedToken.Revoke()` — which mutates
only the in-memory entity reconstructed by `FindByToken`; the
`TokenRepository` interface has no operation that persists a
single-token revocation, so the stored row is left untouched — then
issue and persist a brand-new pair. -/
def AuthService.RefreshToken (J : JWTManager) (newTokenId : Nat) (now : Int)
    (s : Store) (token : String) : Except Err (AuthResponse × Store) :=
  match J.validate token with
  | none => .error (.unauthorized "invalid refresh token")
  | some claimsUserId =>
    match findTokenByToken s.tokens token with
    | none => .error (.unauthorized "refresh token not found")
    | some storedToken =>
      if !(storedToken.IsValid now) then
        .error (.unauthorized "refresh token is expired or revoked")
      else
        let revokedInMemory := storedToken.Revoke
        match findUserByID s.users claimsUserId with
        | none => .error (.notFound "User" (toString claimsUserId))
        | some user =>
          match J.generateAccess user.id user.email user.role now with
          | none => .error (.wrapped "failed to generate access token" (.external "jwt"))
          | some access =>
            match J.generateRefresh user.id now with
            | none => .error (.wrapped "failed to generate refresh token" (.external "jwt"))
            | some refreshStr =>
              match tokenSave s.tokens
                  (NewRefreshToken user.id refreshStr (now + refreshTokenTTL) newTokenId now) with
              | .error e => .error (.wrapped "failed to save refresh token" e)
              | .ok tokens1 =>
                let _ := revokedInMemory
                .ok ({ accessToken := access, refreshToken := refreshStr,
                       user := toUserDTO user },
                     { users := s.users, tokens := tokens1 })

/-- `AuthService.Logout`: one bulk `RevokeAllForUser`.  `revokeErr`
injects a possible infrastructure failure of that store call (matching
zero rows is not a failure); on failure Logout propagates the error
wrapped as `failed to revoke tokens: %w`. -/
def AuthService.Logout (revokeErr : Option Err) (s : Store) (userID : Nat) :
    Except Err Store :=
  match revokeErr with
  | some e => .error (.wrapped "failed to revoke tokens" e)
  | none => .ok { s with tokens := revokeAllForUser s.tokens userID }

/-- `AuthService.GetProfile`. -/
def AuthService.GetProfile (s : Store) (userID : Nat) : Except Err UserDTO :=
  match findUserByID s.users userID with
  | none => .error (.notFound "User" (toString userID))
  | some u => .ok (toUserDTO u)

/-- `AuthService.UpdateProfile`: load, mutate in memory
(`UpdateProfile` then `IncrementVersion`), commit through the
version-fenced `Update`; the store error is wrapped as
`failed to update user: %w`. -/
def AuthService.UpdateProfile (now : Int) (s : Store) (userID : Nat)
    (req : UpdateProfileRequest) : Except Err (UserDTO × Store) :=
  match findUserByID s.users userID with
  | none => .error (.notFound "User" (toString userID))
  | some u =>
    let u1 := (u.UpdateProfile req.fullName req.phone req.avatarURL now).IncrementVersion now
    match userUpdate s.users u1 with
    | .error e => .error (.wrapped "failed to update user" e)
    | .ok users1 => .ok (toUserDTO u1, { s with users := users1 })

/-- `AuthService.BanUser`: load, `Deactivate` + `IncrementVersion`,
commit through the version-fenced `Update`, then
`_ = s.tokenRepo.RevokeAllForUser(ctx, userID)` — the revocation result
is discarded, so an injected revocation failure (`revokeErr`) leaves the
tokens untouched but never fails the ban. -/
def AuthService.BanUser (revokeErr : Option Err) (now : Int) (s : Store) (userID : Nat) :
    Except Err Store :=
  match findUserByID s.users userID with
  | none => .error (.notFound "User" (toString userID))
  | some u =>
    let u1 := (u.Deactivate now).IncrementVersion now
    match userUpdate s.users u1 with
    | .error e => .error (.wrapped "failed to ban user" e)
    | .ok users1 =>
      let tokens1 :=
        match revokeErr with
        | some _ => s.tokens
        | none => revokeAllForUser s.tokens userID
      .ok { users := users1, tokens := tokens1 }

/-! ## Claim C1 — refresh-token rotation / replay -/

/-- A user on record for the replay scenario. -/
def c1User : User :=
  { id := 1, email := "a@x.com", phone := "", passwordHash := "h", fullName := "A",
    role := "owner", isVerified := true, avatarURL := "", version := 1,
    createdAt := 5, updatedAt := 5 }

/-- A live (not revoked, not expired) refresh token held by `c1User`. -/
def c1Tok : RefreshToken :=
  { id := 10, userID := 1, token := "tok1", expiresAt := 1000, revoked := false,
    createdAt := 0 }

/-- Initial state for the replay scenario. -/
def c1Store : Store := { users := [c1User], tokens := [c1Tok] }

/-- A signer that accepts the scenario tokens and mints fresh strings
per clock instant. -/
def c1J : JWTManager :=
  { generateAccess := fun _ _ _ n => some ("at" ++ toString n)
    generateRefresh := fun _ n => some ("rt" ++ toString n)
    validate := fun t =>
      if t == "tok1" || t == "rt100" || t == "rt101" then some 1 else none }

/-- The first exchange of `tok1`, at instant 100. -/
def c1First : Except Err (AuthResponse × Store) :=
  AuthService.RefreshToken c1J 11 100 c1Store "tok1"

/-- The store left behind by the first exchange. -/
def c1Store1 : Store :=
  match c1First with
  | .ok (_, s1) => s1
  | .error _ => c1Store

/-- C1: the claim fails on the code.  The first `RefreshToken("tok1")`
call succeeds, but the presented token's stored row is left with
`revoked = false` (`storedToken.Revoke()` mutates only the in-memory
copy and no repository operation persists it), so a second call with
the same `tok1` also succeeds instead of failing with `Unauthorized`. -/
theorem c1_refresh_token_replay_succeeds_twice :
    c1First.isOk = true ∧
    findTokenByToken c1Store1.tokens "tok1" = some c1Tok ∧
    (AuthService.RefreshToken c1J 12 101 c1Store1 "tok1").isOk = true := by
  decide

/-! ## Claim C3 — BanUser persistence -/

/-- A verified user about to be banned. -/
def c3User : User :=
  { id := 1, email := "b@x.com", phone := "", passwordHash := "h", fullName := "B",
    role := "runner", isVerified := true, avatarURL := "", version := 1,
    createdAt := 5, updatedAt := 5 }

/-- A live refresh token held by `c3User`. -/
def c3Tok : RefreshToken :=
  { id := 20, userID := 1, token := "btok", expiresAt := 1000, revoked := false,
    createdAt := 0 }

/-- Initial state for the ban scenario. -/
def c3Store : Store := { users := [c3User], tokens := [c3Tok] }

/-- C3: the claim fails on the code.  `BanUser` on a verified user does
succeed, increments the persisted version by 1 and tolerates a failing
bulk revocation (the `_ =` discard), but the persisted row keeps
`isVerified = true`: the commit goes through GORM `Updates` with a
struct, which drops zero-valued fields, so `is_verified = false` is
never written and `GetProfile` still reports a verified user. -/
theorem c3_ban_leaves_persisted_verified_true :
    AuthService.BanUser (some (.external "revoke failed")) 50 c3Store 1 =
      .ok { users := [{ c3User with version := 2, updatedAt := 50 }], tokens := [c3Tok] } ∧
    AuthService.GetProfile
        { users := [{ c3User with version := 2, updatedAt := 50 }], tokens := [c3Tok] } 1 =
      .ok (toUserDTO c3User) ∧
    (toUserDTO c3User).isVerified = true ∧
    c3User.isVerified = true ∧
    c3User.version = 1 := by
  decide

/-! ## Claim C6 — RefreshToken.IsValid -/

/-- A non-revoked token expiring exactly at instant 100. -/
def c6Tok : RefreshToken :=
  { id := 1, userID := 1, token := "t", expiresAt := 100, revoked := false,
    createdAt := 0 }

/-- C6 counterexample: at `now = expiresAt` the claim says the token is
invalid (`now` is not strictly before `expiresAt`), but `IsExpired`
uses `time.Now().After(expiresAt)` — strict — so `IsValid` is true. -/
theorem c6_isvalid_true_at_expiry_instant :
    RefreshToken.IsValid c6Tok 100 = true ∧
    c6Tok.revoked = false ∧
    ¬(100 < c6Tok.expiresAt) := by
  decide

/-- C6 amended: `IsValid` returns true iff the token is not revoked and
`now` is not strictly after `expiresAt` (`now ≤ expiresAt`); hence it is
false for any revoked token regardless of expiry and false for any token
strictly past its expiry regardless of the revoked flag. -/
theorem c6_isvalid_iff_not_revoked_and_not_after_expiry
    (t : RefreshToken) (now : Int) :
    RefreshToken.IsValid t now = true ↔ (t.revoked = false ∧ now ≤ t.expiresAt) := by
  simp [RefreshToken.IsValid, RefreshToken.IsExpired, Bool.and_eq_true,
    Bool.not_eq_true', not_lt]

/-- C6 witness: the amended equivalence applied to the concrete boundary
token at instant 100. -/
theorem c6_isvalid_iff_witness : RefreshToken.IsValid c6Tok 100 = true :=
  (c6_isvalid_iff_not_revoked_and_not_after_expiry c6Tok 100).mpr (by decide)

/-! ## Claim C9 — phone format invariant -/

/-- A user with a (vacuously well-formed) empty phone. -/
def c9User : User :=
  { id := 1, email := "c@x.com", phone := "", passwordHash := "h", fullName := "C",
    role := "owner", isVerified := false, avatarURL := "", version := 1,
    createdAt := 5, updatedAt := 5 }

/-- Initial state for the phone-invariant scenario. -/
def c9Store : Store := { users := [c9User], tokens := [] }

/-- C9: the claim fails on the code.  `NewPhone` rejects
`"not-a-phone"`, yet `UpdateProfile` assigns the raw request phone via a
direct `Phone{value: phone}` literal without validation, so the
persisted user ends up with a phone that is neither empty nor in valid
format. -/
theorem c9_update_profile_accepts_invalid_phone :
    AuthService.UpdateProfile 7 c9Store 1
        { fullName := "", phone := "not-a-phone", avatarURL := "" } =
      .ok (⟨1, "c@x.com", "not-a-phone", "C", "owner", false, "", 5⟩,
           { users := [{ c9User with phone := "not-a-phone", version := 2, updatedAt := 7 }],
             tokens := [] }) ∧
    phoneFormatOk "not-a-phone" = false ∧
    ("not-a-phone" : String) ≠ "" ∧
    NewPhone "not-a-phone" = .error "invalid phone format: not-a-phone" := by
  decide

/-! ## Claim C5 — login failure indistinguishability -/

/-- C5: whether the email is unknown (`FindByEmail` yields nothing) or
the stored hash does not match the password, `Login` returns the very
same `Unauthorized` error with the identical literal message
`invalid email or password`. -/
theorem c5_login_failures_indistinguishable (H : Hasher) (J : JWTManager)
    (newTokenId : Nat) (now : Int) (s : Store) (req : LoginRequest)
    (h : findUserByEmail s.users req.email = none ∨
      ∃ u, findUserByEmail s.users req.email = some u ∧
        H.compare u.passwordHash req.password = false) :
    AuthService.Login H J newTokenId now s req =
      .error (.unauthorized "invalid email or password") := by
  rcases h with hnone | ⟨u, hu, hpw⟩
  · simp [AuthService.Login, hnone]
  · simp [AuthService.Login, hu, hpw]

/-- An empty store for the login-failure witness. -/
def c5Store : Store := { users := [], tokens := [] }

/-- C5 witness: the unknown-email case at a concrete input. -/
theorem c5_login_failures_witness :
    AuthService.Login ⟨fun p => some p, fun _ _ => false⟩
      ⟨fun _ _ _ _ => none, fun _ _ => none, fun _ => none⟩ 1 0 c5Store ⟨"x@y.com", "pw"⟩ =
      .error (.unauthorized "invalid email or password") :=
  c5_login_failures_indistinguishable _ _ 1 0 c5Store ⟨"x@y.com", "pw"⟩ (Or.inl (by decide))

/-! ## Claim C2 — duplicate registration -/

/-- A user already registered with the (normalized) email `a@x.com`. -/
def c2User : User :=
  { id := 1, email := "a@x.com", phone := "", passwordHash := "h", fullName := "A",
    role := "owner", isVerified := false, avatarURL := "", version := 1,
    createdAt := 5, updatedAt := 5 }

/-- Store holding the already-registered user. -/
def c2Store : Store := { users := [c2User], tokens := [] }

/-- A hasher that always succeeds. -/
def c2H : Hasher := { generate := fun p => some ("h" ++ p), compare := fun h p => h == "h" ++ p }

/-- A signer that always succeeds. -/
def c2J : JWTManager :=
  { generateAccess := fun _ _ _ _ => some "at", generateRefresh := fun _ _ => some "rt",
    validate := fun _ => none }

/-- A second registration whose email differs from the stored one only
in case. -/
def c2Req : RegisterRequest :=
  { email := "A@x.com", phone := "", fullName := "B", password := "longpass1", role := "owner" }

/-- C2 counterexample: registering `A@x.com` over stored `a@x.com` (a
case-insensitively equal duplicate) misses the case-sensitive advisory
pre-check, and `Save`'s unique-constraint violation comes back wrapped
as `failed to save user`, with no `AlreadyExists` anywhere in the error
chain — refuting "always fails with AlreadyExists". -/
theorem c2_counterexample_case_differing_email :
    AuthService.Register c2H c2J 2 20 10 c2Store c2Req =
      .error (.wrapped "failed to save user"
        (.uniqueViolation "duplicate key value violates unique constraint")) ∧
    containsAlreadyExists
        (.wrapped "failed to save user"
          (.uniqueViolation "duplicate key value violates unique constraint")) = false ∧
    toLowerStr (trimSpace c2Req.email) = c2User.email := by
  decide

/-- C2 amended: a second `Register` whose raw email string exactly
matches a stored email fails with `AlreadyExists` via the advisory
pre-check; when the pre-check misses but the normalized email (or id)
collides with a stored row, `Register` fails with the store's raw
unique-constraint error wrapped as `failed to save user`, not with
`AlreadyExists`. -/
theorem c2_register_duplicate_email_amended (H : Hasher) (J : JWTManager)
    (newUserId newTokenId : Nat) (now : Int) (s : Store) (req : RegisterRequest) :
    ((∃ u, findUserByEmail s.users req.email = some u) →
      AuthService.Register H J newUserId newTokenId now s req =
        .error (.alreadyExists "User" "email" req.email))
    ∧ (findUserByEmail s.users req.email = none →
       ∀ hashed user, H.generate req.password = some hashed →
         NewUser req.email req.phone req.fullName hashed req.role newUserId now = .ok user →
         (∃ u ∈ s.users, u.email = user.email ∨ u.id = user.id) →
         AuthService.Register H J newUserId newTokenId now s req =
           .error (.wrapped "failed to save user"
             (.uniqueViolation "duplicate key value violates unique constraint"))) := by
  constructor
  · rintro ⟨u, hu⟩
    simp [AuthService.Register, hu]
  · intro hnone hashed user hgen hnew hcol
    have hany : s.users.any (fun u => u.email == user.email || u.id == user.id) = true := by
      rcases hcol with ⟨u, hu, hor⟩
      refine List.any_eq_true.mpr ⟨u, hu, ?_⟩
      rcases hor with he | hi
      · simp [he]
      · simp [hi]
    simp [AuthService.Register, hnone, hgen, hnew, userSave, hany]

/-- C2 witness: the amended statement instantiated at the concrete
case-differing duplicate. -/
theorem c2_register_duplicate_email_witness :
    AuthService.Register c2H c2J 2 20 10 c2Store c2Req =
      .error (.wrapped "failed to save user"
        (.uniqueViolation "duplicate key value violates unique constraint")) :=
  (c2_register_duplicate_email_amended c2H c2J 2 20 10 c2Store c2Req).2
    (by decide) ("h" ++ c2Req.password)
    { id := 2, email := "a@x.com", phone := "", passwordHash := "hlongpass1", fullName := "B",
      role := "owner", isVerified := false, avatarURL := "", version := 1,
      createdAt := 10, updatedAt := 10 }
    (by decide) (by decide) ⟨c2User, by decide, Or.inl (by decide)⟩

/-! ## Claim C4 — version-fenced conditional Update -/

/-- The version gate of `Update` selects at most one row when stored
ids are pairwise distinct (the primary key is unique). -/
theorem countP_version_gate_le_one (users : List User) (m : User)
    (hids : users.Pairwise (fun a b => a.id ≠ b.id)) :
    users.countP (fun u => u.id == m.id && u.version == m.version - 1) ≤ 1 := by
  induction users with
  | nil => simp
  | cons u rest ih =>
    rcases List.pairwise_cons.mp hids with ⟨hu, hrest⟩
    by_cases hp : (u.id == m.id && u.version == m.version - 1) = true
    · have hid : u.id = m.id := by
        have := (Bool.and_eq_true _ _).mp hp
        exact beq_iff_eq.mp this.1
      have hzero : rest.countP (fun w => w.id == m.id && w.version == m.version - 1) = 0 := by
        refine List.countP_eq_zero.mpr ?_
        intro w hw hpw
        have hwid : w.id = m.id := by
          have := (Bool.and_eq_true _ _).mp hpw
          exact beq_iff_eq.mp this.1
        exact (hu w hw) (hid.trans hwid.symm)
      rw [List.countP_cons, hzero]
      simp [hp]
    · rw [List.countP_cons]
      simpa [hp] using ih hrest

/-- C4: under unique ids, the store `Update` is a version-fenced
conditional write: it succeeds iff some stored row carries `m.id` and
version `m.version - 1`; on success the `WHERE` clause matched exactly
one row; and when zero rows match it fails with the `Conflict` error.
The embedding is a single conditional transformation of the table — one
`UPDATE ... WHERE id = ? AND version = ?` statement, never a separate
read followed by a write. -/
theorem c4_update_is_version_fenced_conditional_write (users : List User) (m : User)
    (hids : users.Pairwise (fun a b => a.id ≠ b.id)) :
    ((∃ users1, userUpdate users m = .ok users1) ↔
      ∃ u ∈ users, u.id = m.id ∧ u.version = m.version - 1)
    ∧ (∀ users1, userUpdate users m = .ok users1 →
        users.countP (fun u => u.id == m.id && u.version == m.version - 1) = 1)
    ∧ (users.countP (fun u => u.id == m.id && u.version == m.version - 1) = 0 →
        userUpdate users m = .error (.conflict "user was modified by another transaction")) := by
  have hmem : (users.countP (fun u => u.id == m.id && u.version == m.version - 1) ≠ 0) ↔
      ∃ u ∈ users, u.id = m.id ∧ u.version = m.version - 1 := by
    rw [← Nat.pos_iff_ne_zero, List.countP_pos_iff]
    constructor
    · rintro ⟨u, hu, hp⟩
      have := (Bool.and_eq_true _ _).mp hp
      exact ⟨u, hu, beq_iff_eq.mp this.1, beq_iff_eq.mp this.2⟩
    · rintro ⟨u, hu, h1, h2⟩
      exact ⟨u, hu, by simp [h1, h2]⟩
  refine ⟨?_, ?_, ?_⟩
  · constructor
    · rintro ⟨users1, hok⟩
      refine hmem.mp ?_
      intro hzero
      rw [userUpdate, if_pos hzero] at hok
      exact Except.noConfusion hok
    · intro hex
      have hne := hmem.mpr hex
      exact ⟨_, by rw [userUpdate, if_neg hne]⟩
  · intro users1 hok
    have hne : users.countP (fun u => u.id == m.id && u.version == m.version - 1) ≠ 0 := by
      intro hzero
      rw [userUpdate, if_pos hzero] at hok
      exact Except.noConfusion hok
    have hle := countP_version_gate_le_one users m hids
    omega
  · intro hzero
    rw [userUpdate, if_pos hzero]

/-- A stored user for the conditional-write witness. -/
def c4User : User :=
  { id := 3, email := "d@x.com", phone := "", passwordHash := "h", fullName := "D",
    role := "owner", isVerified := false, avatarURL := "", version := 4,
    createdAt := 0, updatedAt := 0 }

/-- C4 witness: a write expecting prior version 6 against a stored
version 4 affects zero rows and surfaces `Conflict`. -/
theorem c4_update_conditional_write_witness :
    userUpdate [c4User] { c4User with version := 7 } =
      .error (.conflict "user was modified by another transaction") :=
  (c4_update_is_version_fenced_conditional_write [c4User] { c4User with version := 7 }
    (List.pairwise_singleton _ _)).2.2 (by decide)

/-! ## Claim C8 — Logout -/

/-- Helper: after the bulk revoke, every token of the user is revoked. -/
theorem revokeAll_revokes_matching (l : List RefreshToken) (uid : Nat) :
    ∀ t ∈ revokeAllForUser l uid, t.userID = uid → t.revoked = true := by
  intro t ht htu
  rw [revokeAllForUser, List.mem_map] at ht
  rcases ht with ⟨t0, ht0, rfl⟩
  by_cases hc : (t0.userID == uid && !t0.revoked) = true
  · simp [hc]
  · rw [if_neg hc] at htu ⊢
    have hbeq : (t0.userID == uid) = true := beq_iff_eq.mpr htu
    simp [hbeq] at hc
    simpa using hc

/-- Helper: the bulk revoke is idempotent on the token table. -/
theorem revokeAll_idempotent (l : List RefreshToken) (uid : Nat) :
    revokeAllForUser (revokeAllForUser l uid) uid = revokeAllForUser l uid := by
  show List.map _ (List.map _ l) = List.map _ l
  rw [List.map_map]
  refine List.map_congr_left ?_
  intro t _
  by_cases hc : (t.userID == uid && !t.revoked) = true
  · simp [Function.comp, hc]
  · simp [Function.comp, hc]

/-- Helper: with no rows for the user, the bulk revoke changes nothing
(and, in the source, GORM reports zero rows affected with a nil error). -/
theorem revokeAll_zero_matches (l : List RefreshToken) (uid : Nat)
    (h : ∀ t ∈ l, t.userID ≠ uid) : revokeAllForUser l uid = l := by
  rw [revokeAllForUser]
  have hid : ∀ t ∈ l,
      (if t.userID == uid && !t.revoked then { t with revoked := true } else t) = id t := by
    intro t ht
    have hbeq : (t.userID == uid) = false := beq_eq_false_iff_ne.mpr (h t ht)
    simp [hbeq]
  rw [List.map_congr_left hid, List.map_id]

/-- C8: absent an infrastructure failure of the store call (zero
matching rows is not one), `Logout` succeeds and revokes every token of
the user; running it again returns the very same store (idempotence);
and with zero tokens for the user it succeeds without touching the
state at all. -/
theorem c8_logout_revokes_all_and_idempotent (uid : Nat) (s : Store) :
    ∃ s1, AuthService.Logout none s uid = .ok s1 ∧
      (∀ t ∈ s1.tokens, t.userID = uid → t.revoked = true) ∧
      AuthService.Logout none s1 uid = .ok s1 ∧
      ((∀ t ∈ s.tokens, t.userID ≠ uid) → s1 = s) := by
  refine ⟨{ s with tokens := revokeAllForUser s.tokens uid }, rfl, ?_, ?_, ?_⟩
  · exact revokeAll_revokes_matching s.tokens uid
  · show Except.ok (⟨s.users, revokeAllForUser (revokeAllForUser s.tokens uid) uid⟩ : Store) =
      Except.ok (⟨s.users, revokeAllForUser s.tokens uid⟩ : Store)
    rw [revokeAll_idempotent]
  · intro h
    show (⟨s.users, revokeAllForUser s.tokens uid⟩ : Store) = s
    rw [revokeAll_zero_matches s.tokens uid h]

/-- A live token of user 4 for the logout witness. -/
def c8Tok : RefreshToken :=
  { id := 30, userID := 4, token := "ltok", expiresAt := 1000, revoked := false,
    createdAt := 0 }

/-- Store for the logout witness. -/
def c8Store : Store := { users := [], tokens := [c8Tok] }

/-- C8 witness: the logout properties at a concrete one-token store. -/
theorem c8_logout_witness :
    ∃ s1, AuthService.Logout none c8Store 4 = .ok s1 ∧
      (∀ t ∈ s1.tokens, t.userID = 4 → t.revoked = true) ∧
      AuthService.Logout none s1 4 = .ok s1 ∧
      ((∀ t ∈ c8Store.tokens, t.userID ≠ 4) → s1 = c8Store) :=
  c8_logout_revokes_all_and_idempotent 4 c8Store

/-! ## Claim C10 — Login ignores the verified flag -/

/-- C10: `Login` succeeds for any stored user whose password matches,
with no hypothesis whatsoever on `u.isVerified` — the code never reads
the flag, so a user deactivated by `BanUser` (`isVerified = false`) can
log back in and receive a fresh access/refresh pair. -/
theorem c10_login_ignores_verified_flag (H : Hasher) (J : JWTManager)
    (newTokenId : Nat) (now : Int) (s : Store) (req : LoginRequest)
    (u : User) (a r : String)
    (hfind : findUserByEmail s.users req.email = some u)
    (hpw : H.compare u.passwordHash req.password = true)
    (hacc : J.generateAccess u.id u.email u.role now = some a)
    (href : J.generateRefresh u.id now = some r)
    (hfresh : ∀ t ∈ s.tokens, t.token ≠ r ∧ t.id ≠ newTokenId) :
    AuthService.Login H J newTokenId now s req =
      .ok ({ accessToken := a, refreshToken := r, user := toUserDTO u },
           { users := s.users,
             tokens := s.tokens ++
               [NewRefreshToken u.id r (now + refreshTokenTTL) newTokenId now] }) := by
  have hany : s.tokens.any (fun t =>
      t.token == (NewRefreshToken u.id r (now + refreshTokenTTL) newTokenId now).token ||
      t.id == (NewRefreshToken u.id r (now + refreshTokenTTL) newTokenId now).id) = false := by
    refine List.any_eq_false.mpr ?_
    intro t ht
    rcases hfresh t ht with ⟨h1, h2⟩
    simp [NewRefreshToken, h1, h2]
  simp [AuthService.Login, hfind, hpw, hacc, href, tokenSave, hany]

/-- An unverified (banned) user who still knows the password. -/
def c10User : User :=
  { id := 9, email := "e@x.com", phone := "", passwordHash := "hpw", fullName := "E",
    role := "owner", isVerified := false, avatarURL := "", version := 2,
    createdAt := 1, updatedAt := 6 }

/-- Store for the re-login witness. -/
def c10Store : Store := { users := [c10User], tokens := [] }

/-- Hasher for the re-login witness. -/
def c10H : Hasher := { generate := fun p => some ("h" ++ p), compare := fun h p => h == "h" ++ p }

/-- Signer for the re-login witness. -/
def c10J : JWTManager :=
  { generateAccess := fun _ _ _ n => some ("at" ++ toString n)
    generateRefresh := fun _ n => some ("rt" ++ toString n)
    validate := fun _ => none }

/-- C10 witness: the deactivated (`isVerified = false`) user logs in
successfully. -/
theorem c10_login_witness :
    AuthService.Login c10H c10J 40 11 c10Store ⟨"e@x.com", "pw"⟩ =
      .ok ({ accessToken := "at11", refreshToken := "rt11", user := toUserDTO c10User },
           { users := c10Store.users,
             tokens := c10Store.tokens ++
               [NewRefreshToken c10User.id "rt11" (11 + refreshTokenTTL) 40 11] }) :=
  c10_login_ignores_verified_flag c10H c10J 40 11 c10Store ⟨"e@x.com", "pw"⟩ c10User
    "at11" "rt11" (by decide) (by decide) (by decide) (by decide)
    (by intro t ht; simp [c10Store] at ht)

/-! ## Claim C7 — UpdateProfile partial update and frame -/

/-- C7: for a user on record (with the invariant `version ≥ 1` every
persisted user satisfies), `UpdateProfile` succeeds, and the persisted
row afterwards has each of the three fields replaced exactly when the
request carries a non-empty value for it, the version incremented by
exactly 1, and every other field except `updatedAt` unchanged. -/
theorem c7_update_profile_partial_frame (now : Int) (s : Store) (uid : Nat)
    (req : UpdateProfileRequest) (u : User)
    (hfind : findUserByID s.users uid = some u)
    (hver : 1 ≤ u.version) :
    ∃ d s1 w, AuthService.UpdateProfile now s uid req = .ok (d, s1) ∧
      findUserByID s1.users uid = some w ∧
      w.fullName = (if req.fullName = "" then u.fullName else req.fullName) ∧
      w.phone = (if req.phone = "" then u.phone else req.phone) ∧
      w.avatarURL = (if req.avatarURL = "" then u.avatarURL else req.avatarURL) ∧
      w.version = u.version + 1 ∧
      w.id = u.id ∧ w.email = u.email ∧ w.passwordHash = u.passwordHash ∧
      w.role = u.role ∧ w.isVerified = u.isVerified ∧ w.createdAt = u.createdAt := by
  have hmem : u ∈ s.users := List.mem_of_find?_eq_some hfind
  set u1 := (u.UpdateProfile req.fullName req.phone req.avatarURL now).IncrementVersion now
    with hu1
  have hid1 : u1.id = u.id := rfl
  have hv1 : u1.version = u.version + 1 := rfl
  have hpred : (u.id == u1.id && u.version == u1.version - 1) = true := by
    rw [hid1, hv1]
    simp
  have hne : s.users.countP (fun w => w.id == u1.id && w.version == u1.version - 1) ≠ 0 :=
    Nat.pos_iff_ne_zero.mp (List.countP_pos_iff.mpr ⟨u, hmem, hpred⟩)
  refine ⟨toUserDTO u1,
    { s with users := s.users.map fun w =>
        if w.id == u1.id && w.version == u1.version - 1 then applyUserUpdates w u1 else w },
    applyUserUpdates u u1, ?_, ?_, ?_, ?_, ?_, ?_, ?_, ?_, ?_, ?_, ?_, ?_⟩
  · simp only [AuthService.UpdateProfile, hfind, userUpdate, if_neg hne, ← hu1]
  · have hcomp : ((fun w => w.id == uid) ∘ fun w =>
        if w.id == u1.id && w.version == u1.version - 1 then applyUserUpdates w u1 else w) =
        (fun w : User => w.id == uid) := by
      funext w
      by_cases hc : (w.id == u1.id && w.version == u1.version - 1) = true
      · simp [Function.comp, hc, applyUserUpdates]
      · simp [Function.comp, hc]
    have hfind0 : List.find? (fun w : User => w.id == uid) s.users = some u := hfind
    simp only [findUserByID]
    rw [List.find?_map, hcomp, hfind0]
    simp only [Option.map_some']
    rw [if_pos hpred]
  · by_cases hf : req.fullName = "" <;> by_cases hg : u.fullName = "" <;>
      simp [hu1, applyUserUpdates, User.UpdateProfile, User.IncrementVersion, hf, hg]
  · by_cases hf : req.phone = "" <;> by_cases hg : u.phone = "" <;>
      simp [hu1, applyUserUpdates, User.UpdateProfile, User.IncrementVersion, hf, hg]
  · by_cases hf : req.avatarURL = "" <;> by_cases hg : u.avatarURL = "" <;>
      simp [hu1, applyUserUpdates, User.UpdateProfile, User.IncrementVersion, hf, hg]
  · have hnz : u.version + 1 ≠ 0 := by omega
    simp [applyUserUpdates, hv1, hnz]
  · simp [applyUserUpdates]
  · simp [hu1, applyUserUpdates, User.UpdateProfile, User.IncrementVersion]
  · simp [hu1, applyUserUpdates, User.UpdateProfile, User.IncrementVersion]
  · simp [hu1, applyUserUpdates, User.UpdateProfile, User.IncrementVersion]
  · cases hb : u.isVerified <;>
      simp [hu1, applyUserUpdates, User.UpdateProfile, User.IncrementVersion, hb]
  · simp [hu1, applyUserUpdates, User.UpdateProfile, User.IncrementVersion]

/-- A stored user for the partial-update witness. -/
def c7User : User :=
  { id := 6, email := "f@x.com", phone := "+12345678", passwordHash := "h", fullName := "F",
    role := "owner", isVerified := true, avatarURL := "", version := 3,
    createdAt := 2, updatedAt := 2 }

/-- Store for the partial-update witness. -/
def c7Store : Store := { users := [c7User], tokens := [] }

/-- C7 witness: a request carrying a new name and avatar but an empty
phone replaces exactly those two fields, keeps the phone, and bumps the
version from 3 to 4. -/
theorem c7_update_profile_witness :
    ∃ d s1 w, AuthService.UpdateProfile 9 c7Store 6 ⟨"G", "", "pic"⟩ = .ok (d, s1) ∧
      findUserByID s1.users 6 = some w ∧
      w.fullName = (if ("G" : String) = "" then c7User.fullName else "G") ∧
      w.phone = (if ("" : String) = "" then c7User.phone else "") ∧
      w.avatarURL = (if ("pic" : String) = "" then c7User.avatarURL else "pic") ∧
      w.version = c7User.version + 1 ∧
      w.id = c7User.id ∧ w.email = c7User.email ∧ w.passwordHash = c7User.passwordHash ∧
      w.role = c7User.role ∧ w.isVerified = c7User.isVerified ∧
      w.createdAt = c7User.createdAt :=
  c7_update_profile_partial_frame 9 c7Store 6 ⟨"G", "", "pic"⟩ c7User (by decide) (by decide)
